import Mathlib

/-!
Verification of the TimeGuardian time-synchronization core.

The definitions below are a shallow embedding of the Python sources
`src/app/ntp_client.py`, `src/app/main.py`, `src/app/time_utils.py` and
`src/elevated_time_setter.py`.  Machine floats are modelled as rationals,
byte strings as lists of naturals, network and clock effects as explicit
inputs, and thread completion as an explicit assignment of outcomes.
-/

namespace TimeGuardian

/-- Mirrors `NtpResult` from `src/app/ntp_client.py`: one probe sample.
`rtt_ms` and `offset_ms` are Python floats, modelled as rationals;
`error` is `None` or a string. -/
structure NtpResult where
  server : String
  rtt_ms : ℚ
  offset_ms : ℚ
  success : Bool
  error : Option String
deriving DecidableEq

/-- `NTP_DELTA` from `ntp_client.py` (seconds between the 1900 NTP epoch
and the 1970 Unix epoch). -/
def NTP_DELTA : ℚ := 2208988800

/-- Python `statistics.median` on a list of rationals: sort ascending,
take the middle element when the length is odd, the mean of the two
middle elements when it is even (0 as a do-not-care value on `[]`,
where the Python function raises). -/
def pymedian (l : List ℚ) : ℚ :=
  let s := l.insertionSort (· ≤ ·)
  let n := l.length
  if n % 2 = 1 then s.getD (n / 2) 0
  else (s.getD (n / 2 - 1) 0 + s.getD (n / 2) 0) / 2

/-- Python truthy `or` of an optional string with a string default:
`a or b` yields `b` when `a` is `None` or the empty string. -/
def pyOrStr (a : Option String) (b : String) : String :=
  match a with
  | some s => if s = "" then b else s
  | none => b

/-- Python `int(...)` on a rational: truncation toward zero. -/
def pyInt (q : ℚ) : ℤ := if 0 ≤ q then ⌊q⌋ else ⌈q⌉

/-! ### Transactor: `query_ntp_once` (src/app/ntp_client.py, lines 36-93) -/

/-- Big-endian unsigned 32-bit field of a byte string at byte offset
`off` (the semantics of one `I` field of `struct.unpack("!...")`).
Bytes beyond the end of the string read as 0. -/
def be32 (data : List ℕ) (off : ℕ) : ℕ :=
  data.getD off 0 * 16777216 + data.getD (off + 1) 0 * 65536 +
    data.getD (off + 2) 0 * 256 + data.getD (off + 3) 0

/-- Byte offset of `unpacked[k]`, `4 ≤ k ≤ 14`, for
`struct.unpack("!B B b b 11I", data)`: the four single-byte fields cover
bytes 0-3 and the eleven big-endian u32 fields start at byte 4. -/
def unpackedOffset (k : ℕ) : ℕ := 4 + 4 * (k - 4)

/-- Receive-timestamp seconds of a 48-byte SNTP message: bytes 32-35 of
the RFC 5905 layout (the field preceding the transmit timestamp, which
the spec places at bytes 40-47). -/
def receive_ts_sec (data : List ℕ) : ℕ := be32 data 32

/-- Receive-timestamp fraction: bytes 36-39 of the 48-byte layout. -/
def receive_ts_frac (data : List ℕ) : ℕ := be32 data 36

/-- Transmit-timestamp seconds: bytes 40-43 of the 48-byte layout. -/
def transmit_ts_sec (data : List ℕ) : ℕ := be32 data 40

/-- Transmit-timestamp fraction: bytes 44-47 of the 48-byte layout. -/
def transmit_ts_frac (data : List ℕ) : ℕ := be32 data 44

/-- Origin-timestamp seconds: bytes 24-27 of the 48-byte layout (the
copy of the client transmit timestamp echoed by the server). -/
def origin_ts_sec (data : List ℕ) : ℕ := be32 data 24

/-- Origin-timestamp fraction: bytes 28-31 of the 48-byte layout. -/
def origin_ts_frac (data : List ℕ) : ℕ := be32 data 28

/-- `_parts_to_timestamp`: seconds plus fraction over 2^32. -/
def parts_to_timestamp (seconds fraction : ℕ) : ℚ :=
  (seconds : ℚ) + (fraction : ℚ) / 2 ^ 32

/-- `_ntp_to_system_time`: subtract `NTP_DELTA`. -/
def ntp_to_system_time (ts : ℚ) : ℚ := ts - NTP_DELTA

/-- The effectful environment of one `query_ntp_once` call: either the
socket raised (`sockError`, carrying `str(e)`), or a datagram `data`
arrived, with `p1_ns`/`p4_ns` the `perf_counter_ns` readings taken at
send and receive and `t1_sys`/`t4_sys` the wall-clock `time.time()`
readings (seconds). -/
inductive ProbeEnv where
  | sockError (msg : String)
  | reply (data : List ℕ) (p1_ns p4_ns : ℤ) (t1_sys t4_sys : ℚ)
deriving DecidableEq

/-- Models `query_ntp_once`: parse the reply with
`struct.unpack("!B B b b 11I", data)`, take `unpacked[9]/unpacked[10]`
as the `t2` parts and `unpacked[11]/unpacked[12]` as the `t3` parts,
compute the round trip from the high-resolution elapsed time with a
wall-clock fallback when it comes out negative, floor the RTT at zero,
and compute the offset `((t2 - t1) + (t3 - t4)) / 2`. -/
def query_ntp_once (server : String) (env : ProbeEnv) : NtpResult :=
  match env with
  | .sockError msg => ⟨server, 0, 0, false, some msg⟩
  | .reply data p1_ns p4_ns t1_sys t4_sys =>
    if data.length < 48 then ⟨server, 0, 0, false, some "Short NTP response"⟩
    else
      let recv_sec := be32 data (unpackedOffset 9)
      let recv_frac := be32 data (unpackedOffset 10)
      let tx_sec := be32 data (unpackedOffset 11)
      let tx_frac := be32 data (unpackedOffset 12)
      let t2 := ntp_to_system_time (parts_to_timestamp recv_sec recv_frac)
      let t3 := ntp_to_system_time (parts_to_timestamp tx_sec tx_frac)
      let local_rtt : ℚ := ((p4_ns - p1_ns : ℤ) : ℚ) / 1000000000
      let rtt0 := local_rtt - (t3 - t2)
      let rtt := if rtt0 < 0 then (t4_sys - t1_sys) - (t3 - t2) else rtt0
      ⟨server, max 0 (rtt * 1000), ((t2 - t1_sys) + (t3 - t4_sys)) / 2 * 1000, true, none⟩

/-! ### Aggregator: `query_ntp` (src/app/ntp_client.py, lines 95-113) -/

/-- Models `query_ntp`: run `query_ntp_once` once per environment in
`envs` (the loop runs `max(1, samples)` times; `envs` lists the
environment of each iteration in order), keep the successful samples,
and return the median of their RTTs and, independently, of their
offsets.  With no success, fail with `last_err or "NTP failed"` where
`last_err` is the error of the last failed probe. -/
def query_ntp (server : String) (envs : List ProbeEnv) : NtpResult :=
  let probes := envs.map (query_ntp_once server)
  let results := probes.filter (·.success)
  let last_err : Option String := ((probes.filter fun r => !r.success).getLast?).bind (·.error)
  if results.isEmpty then
    ⟨server, 0, 0, false, some (pyOrStr last_err "NTP failed")⟩
  else
    ⟨server, pymedian (results.map (·.rtt_ms)), pymedian (results.map (·.offset_ms)), true, none⟩

/-! ### ICMP fallback: `_icmp_ping_windows` (lines 115-135) -/

/-- Models `_icmp_ping_windows` after the shell-out: `failed` is the
exceptional path (subprocess error or timeout), `times` the
`time=<n>ms` integers parsed from the ping output in order, `avg` the
optional `Average = <n>ms` value.  Returns the median of `times` when
any were parsed, else `avg`, else `None`. -/
def icmp_ping_windows (failed : Bool) (times : List ℕ) (avg : Option ℕ) : Option ℚ :=
  if failed then none
  else if !times.isEmpty then some (pymedian (times.map fun n : ℕ => (n : ℚ)))
  else
    match avg with
    | some a => some ((a : ℚ))
    | none => none

/-- The `-n` ping count `_icmp_ping_windows` passes to the ping
utility: `max(1, int(samples))`. -/
def icmp_ping_windows_count (samples : ℕ) : ℕ := max 1 samples

/-- The `samples` argument the `ping_servers` worker passes to
`_icmp_ping_windows`: `max(2, samples)`. -/
def worker_icmp_samples (samples : ℕ) : ℕ := max 2 samples

/-- Number of ICMP echo requests the fallback issues, as a function of
the `samples` argument of `ping_servers`. -/
def icmp_pings_issued (samples : ℕ) : ℕ :=
  icmp_ping_windows_count (worker_icmp_samples samples)

/-! ### ProbePool: `ping_servers` (lines 137-184) -/

/-- Models the `worker` closure of `ping_servers`: given the aggregated
SNTP result for one server and the ICMP fallback latency it would
observe, the result stored into the slot of that server. -/
def worker_result (server : String) (ntp_res : NtpResult) (icmp_rtt : Option ℚ) : NtpResult :=
  if ntp_res.success then ntp_res
  else
    match icmp_rtt with
    | some r => ⟨server, r, 0, false, some "ICMP fallback"⟩
    | none => ⟨server, 0, 0, false, some (pyOrStr ntp_res.error "NTP failed")⟩

/-- Models `ping_servers`: `envs i` is the sequence of SNTP probe
environments the worker for input index `i` observes, `icmp i` the ICMP
fallback latency it would measure, and `completedTask i` whether that
worker ran to completion and stored its result (`completedTask i =
false` is the defensive case of a slot left `None`).  Each worker
writes only the slot of its own input index, so the output is indexed
by input position no matter in which order workers finish; `None`
slots are replaced by an "Unknown" failure sample at the end. -/
def ping_servers (servers : List String) (envs : ℕ → List ProbeEnv)
    (icmp : ℕ → Option ℚ) (completedTask : ℕ → Bool) : List NtpResult :=
  (List.range servers.length).map fun i =>
    let srv := servers.getD i ""
    if completedTask i then worker_result srv (query_ntp srv (envs i)) (icmp i)
    else ⟨srv, 0, 0, false, some "Unknown"⟩

/-! ### SelectionPolicy: `NtpSyncManager._choose_server` (src/app/main.py, lines 55-80) -/

/-- One step of the best-server scan in `_choose_server`: a successful
probe replaces the current best only when its RTT is strictly lower. -/
def choose_step (best : Option NtpResult) (res : NtpResult) : Option NtpResult :=
  if res.success then
    match best with
    | none => some res
    | some b => if res.rtt_ms < b.rtt_ms then some res else some b
  else best

/-- The automatic path of `_choose_server`: scan every configured
server in order, keeping the successful sample of lowest RTT. -/
def choose_server_auto (servers : List String) (probe : String → NtpResult) : Option NtpResult :=
  servers.foldl (fun best host => choose_step best (probe host)) none

/-- Models `NtpSyncManager._choose_server`.  `probe s` stands for
`query_ntp(s, timeout_ms, samples=3)` (deterministic within one call).
With auto-select off and a non-empty preferred server, a successful
preferred probe is returned immediately; otherwise the automatic scan
runs.  An empty server list returns `None` up front. -/
def choose_server (auto_select : Bool) (preferred : String) (servers : List String)
    (probe : String → NtpResult) : Option NtpResult :=
  if servers.isEmpty then none
  else
    let manual : Option NtpResult :=
      if auto_select = false ∧ preferred ≠ "" then
        let res := probe preferred
        if res.success then some res else none
      else none
    match manual with
    | some res => some res
    | none => choose_server_auto servers probe

/-- Spec-side selection: the first candidate whose RTT is no greater
than that of every candidate — "lowest `rtt_ms`, ties resolved by
first-seen order". -/
def lowestRttFirst (cands : List NtpResult) : Option NtpResult :=
  cands.find? fun c => cands.all fun d => decide (c.rtt_ms ≤ d.rtt_ms)

/-! ### SyncScheduler: `NtpSyncManager` (src/app/main.py, lines 82-136) -/

/-- Models `NtpSyncManager._verify_and_apply_time`: below the threshold
no correction is requested; otherwise a correction request with target
`int((now_epoch + offset_ms / 1000) * 1000)` is issued, and the
returned flag is the boolean outcome of
`set_system_time_utc_via_helper` (`escalation_ok`).  Result: `(changed
flag, issued correction request target)`. -/
def verify_and_apply_time (threshold_ms offset_ms now_epoch : ℚ) (escalation_ok : Bool) :
    Bool × Option ℤ :=
  if |offset_ms| < threshold_ms then (false, none)
  else (escalation_ok, some (pyInt ((now_epoch + offset_ms / 1000) * 1000)))

/-- One sleep performed by `_run_loop`, with the duration in seconds
and whether `state.stop_requested` is consulted before the next sleep
can begin. -/
structure SleepEvt where
  dur : ℚ
  stop_checked : Bool
deriving DecidableEq

/-- The sleeps of the end-of-tick wait loop `while slept < interval and
not stop_requested: time.sleep(0.5); slept += 0.5` when stop is never
requested: `2 * interval` sleeps of half a second, the flag being
re-checked before every one of them. -/
def wait_increments (interval : ℕ) : List ℚ := List.replicate (2 * interval) (1 / 2)

/-- The sleeps `_run_loop` performs during one iteration, by path:
auto-sync disabled sleeps 1.0 s then re-checks the loop condition; the
no-server path sleeps the raw `check_interval_sec` in a single call
then re-checks; a tick with a sample sleeps 3.0 s of settle delay when
a correction was applied, then waits out `max(15, check_interval_sec)`
in 0.5 s increments with the stop flag checked before each. -/
def run_loop_tick_sleeps (auto_sync_enabled found changed : Bool)
    (check_interval_sec : ℕ) : List SleepEvt :=
  if auto_sync_enabled = false then [⟨1, true⟩]
  else if found = false then [⟨(check_interval_sec : ℚ), true⟩]
  else
    (if changed then [⟨3, true⟩] else []) ++
      (wait_increments (max 15 check_interval_sec)).map fun d => ⟨d, true⟩

/-- Models lines 113-122 of `_run_loop`: the value stored into
`state.last_success_time` on a tick whose selection returned a sample,
as a function of the `changed` flag of `_verify_and_apply_time` and of
the post-correction re-probe.  Both arms of the re-probe comparison
store the current time, as does the not-changed arm. -/
def tick_last_success_update (changed : Bool) (recheck : NtpResult) (threshold_ms : ℚ)
    (now : ℚ) : Option ℚ :=
  if changed then
    if recheck.success = true ∧ |recheck.offset_ms| < threshold_ms then some now else some now
  else some now

/-! ### ClockSetter (src/app/time_utils.py lines 28-50, src/elevated_time_setter.py lines 76-84) -/

/-- Outcome of the `subprocess.run(["powershell", ...])` escalation
shell-out in `set_system_time_utc_via_helper`. -/
inductive SpawnOutcome where
  | completed
  | timedOut
  | raised (msg : String)
deriving DecidableEq

/-- Models `set_system_time_utc_via_helper`: a missing helper file, a
shell-out timeout, or a raised exception report failure synchronously;
any completed invocation reports success with the fixed
verification-pending message, independent of what the elevated helper
then does. -/
def set_system_time_utc_via_helper (helper_found : Bool) (outcome : SpawnOutcome) :
    Bool × String :=
  if helper_found = false then (false, "Elevated helper not found.")
  else
    match outcome with
    | .completed => (true, "Elevation invoked (verification pending).")
    | .timedOut => (false, "Timed out requesting elevation.")
    | .raised e => (false, "Failed to invoke elevation: " ++ e)

/-- Models `main` of `src/elevated_time_setter.py` after argument
parsing: exit code 0 when `set_system_time_utc` returned truthy,
exit code 2 otherwise. -/
def elevated_helper_exit_code (set_ok : Bool) : ℕ :=
  if set_ok then 0 else 2

/-- A 48-byte SNTP reply whose origin-timestamp seconds are 100 (byte
27), receive-timestamp seconds 200 (byte 35) and transmit-timestamp
seconds 250 (byte 43), all fractions zero. -/
def sampleReply : List ℕ :=
  List.replicate 27 0 ++ [100] ++ List.replicate 7 0 ++ [200] ++
    List.replicate 7 0 ++ [250] ++ List.replicate 4 0

/-- Spec-side statement that `m` is the exact statistical median of
`l`: for some sorted permutation `s` of `l`, `m` is the middle element
of `s` when the length is odd and the mean of the two middle elements
when it is even. -/
def IsStatMedian (m : ℚ) (l : List ℚ) : Prop :=
  ∃ s : List ℚ, List.Perm s l ∧ s.Sorted (· ≤ ·) ∧
    ((l.length % 2 = 1 ∧ s[l.length / 2]? = some m) ∨
     (l.length % 2 = 0 ∧ ∃ a b, s[l.length / 2 - 1]? = some a ∧
        s[l.length / 2]? = some b ∧ m = (a + b) / 2))

/-- The successful samples among the `query_ntp_once` outcomes of one
`query_ntp` run (the `results` list of the source). -/
def successful_probes (server : String) (envs : List ProbeEnv) : List NtpResult :=
  (envs.map (query_ntp_once server)).filter (·.success)

/-- A deterministic probe fixture: servers "a" and "b" succeed with
RTTs 5 and 3; every other host fails. -/
def sampleProbe : String → NtpResult := fun s =>
  if s = "a" then ⟨"a", 5, 1, true, none⟩
  else if s = "b" then ⟨"b", 3, 2, true, none⟩
  else ⟨s, 0, 0, false, some "x"⟩

/-! ### Helper lemmas -/

lemma insertionSort_getD_nonneg (l : List ℚ) (i : ℕ) (h : ∀ x ∈ l, 0 ≤ x) :
    0 ≤ (l.insertionSort (· ≤ ·)).getD i 0 := by
  rw [List.getD_eq_getElem?_getD]
  rcases hlt : (l.insertionSort (· ≤ ·))[i]? with _ | x
  · simp
  · simp only [Option.getD_some]
    exact h x ((List.mem_insertionSort _).mp (List.getElem?_mem hlt))

lemma pymedian_nonneg (l : List ℚ) (h : ∀ x ∈ l, 0 ≤ x) : 0 ≤ pymedian l := by
  unfold pymedian
  dsimp only
  split
  · exact insertionSort_getD_nonneg l _ h
  · have h1 := insertionSort_getD_nonneg l (l.length / 2 - 1) h
    have h2 := insertionSort_getD_nonneg l (l.length / 2) h
    positivity

lemma pymedian_spec (l : List ℚ) (h : l ≠ []) : IsStatMedian (pymedian l) l := by
  refine ⟨l.insertionSort (· ≤ ·), List.perm_insertionSort _ _,
    List.sorted_insertionSort _ _, ?_⟩
  have hlen : (l.insertionSort (· ≤ ·)).length = l.length := by
    rw [List.length_insertionSort]
  have hpos : 0 < l.length := List.length_pos.mpr h
  by_cases hodd : l.length % 2 = 1
  · left
    have hidx : l.length / 2 < (l.insertionSort (· ≤ ·)).length := by
      rw [hlen]; exact Nat.div_lt_self hpos (by norm_num)
    refine ⟨hodd, ?_⟩
    rw [List.getElem?_eq_getElem hidx]
    simp only [pymedian, hodd, if_true, List.getD_eq_getElem?_getD,
      List.getElem?_eq_getElem hidx, Option.getD_some]
  · right
    have heven : l.length % 2 = 0 := by omega
    have hidx : l.length / 2 < (l.insertionSort (· ≤ ·)).length := by
      rw [hlen]; exact Nat.div_lt_self hpos (by norm_num)
    have hidx' : l.length / 2 - 1 < (l.insertionSort (· ≤ ·)).length := by
      rw [hlen]; omega
    refine ⟨heven, (l.insertionSort (· ≤ ·))[l.length / 2 - 1],
      (l.insertionSort (· ≤ ·))[l.length / 2], List.getElem?_eq_getElem hidx',
      List.getElem?_eq_getElem hidx, ?_⟩
    simp only [pymedian, heven, List.getD_eq_getElem?_getD,
      List.getElem?_eq_getElem hidx, List.getElem?_eq_getElem hidx', Option.getD_some]
    norm_num [hodd]

lemma query_ntp_server (s : String) (envs : List ProbeEnv) : (query_ntp s envs).server = s := by
  simp only [query_ntp]
  split <;> rfl

lemma query_ntp_once_rtt_nonneg (s : String) (env : ProbeEnv) :
    0 ≤ (query_ntp_once s env).rtt_ms := by
  cases env with
  | sockError m => simp [query_ntp_once]
  | reply d p1 p4 t1 t4 =>
    simp only [query_ntp_once]
    split
    · exact le_refl 0
    · exact le_max_left 0 _

lemma query_ntp_once_error_of_success (s : String) (env : ProbeEnv)
    (h : (query_ntp_once s env).success = true) : (query_ntp_once s env).error = none := by
  cases env with
  | sockError m => simp [query_ntp_once] at h
  | reply d p1 p4 t1 t4 =>
    by_cases hlen : d.length < 48
    · simp [query_ntp_once, hlen] at h
    · simp [query_ntp_once, hlen]

lemma query_ntp_rtt_nonneg (s : String) (envs : List ProbeEnv) :
    0 ≤ (query_ntp s envs).rtt_ms := by
  simp only [query_ntp]
  split
  · exact le_refl 0
  · apply pymedian_nonneg
    intro x hx
    simp only [List.mem_map] at hx
    obtain ⟨r, hr, rfl⟩ := hx
    have hr' := (List.mem_filter.mp hr).1
    simp only [List.mem_map] at hr'
    obtain ⟨e, -, rfl⟩ := hr'
    exact query_ntp_once_rtt_nonneg s e

lemma query_ntp_error_of_success (s : String) (envs : List ProbeEnv)
    (h : (query_ntp s envs).success = true) : (query_ntp s envs).error = none := by
  simp only [query_ntp] at h ⊢
  split at h
  · simp at h
  · split
    · simp_all
    · rfl

lemma worker_result_server (s : String) (r : NtpResult) (ic : Option ℚ)
    (h : r.server = s) : (worker_result s r ic).server = s := by
  unfold worker_result
  split
  · exact h
  · cases ic <;> rfl

lemma lowestRttFirst_drop_head (b r : NtpResult) (t : List NtpResult)
    (h : r.rtt_ms < b.rtt_ms) :
    lowestRttFirst (b :: r :: t) = lowestRttFirst (r :: t) := by
  unfold lowestRttFirst
  have hble : ¬ (b.rtt_ms ≤ r.rtt_ms) := not_le.mpr h
  have hpb : ((r :: t).all fun d => decide (b.rtt_ms ≤ d.rtt_ms)) = false := by
    simp [List.all_cons, hble]
  have hpt : (fun c : NtpResult => (b :: r :: t).all fun d => decide (c.rtt_ms ≤ d.rtt_ms))
      = fun c : NtpResult => (r :: t).all fun d => decide (c.rtt_ms ≤ d.rtt_ms) := by
    funext c
    by_cases hc : ((r :: t).all fun d => decide (c.rtt_ms ≤ d.rtt_ms)) = true
    · have hcr : c.rtt_ms ≤ r.rtt_ms := by
        have := List.all_eq_true.mp hc r (List.mem_cons_self _ _)
        exact of_decide_eq_true this
      have hcb : c.rtt_ms ≤ b.rtt_ms := le_trans hcr (le_of_lt h)
      simp [List.all_cons, hcb, hc]
    · have hc' : ((r :: t).all fun d => decide (c.rtt_ms ≤ d.rtt_ms)) = false :=
        Bool.eq_false_iff.mpr hc
      simp [List.all_cons, hc']
  rw [hpt]
  simp only [List.find?_cons, hpb]

lemma lowestRttFirst_drop_second (b r : NtpResult) (t : List NtpResult)
    (h : b.rtt_ms ≤ r.rtt_ms) :
    lowestRttFirst (b :: r :: t) = lowestRttFirst (b :: t) := by
  unfold lowestRttFirst
  have hpt : (fun c : NtpResult => (b :: r :: t).all fun d => decide (c.rtt_ms ≤ d.rtt_ms))
      = fun c : NtpResult => (b :: t).all fun d => decide (c.rtt_ms ≤ d.rtt_ms) := by
    funext c
    by_cases hcb : c.rtt_ms ≤ b.rtt_ms
    · have hcr : c.rtt_ms ≤ r.rtt_ms := le_trans hcb h
      simp [List.all_cons, hcb, hcr]
    · simp [List.all_cons, hcb]
  rw [hpt]
  cases hqb : ((b :: t).all fun d => decide (b.rtt_ms ≤ d.rtt_ms)) with
  | true => simp only [List.find?_cons, hqb]
  | false =>
    have hqr : ((b :: t).all fun d => decide (r.rtt_ms ≤ d.rtt_ms)) = false := by
      rw [Bool.eq_false_iff]
      intro hr
      rw [Bool.eq_false_iff] at hqb
      apply hqb
      rw [List.all_eq_true] at hr ⊢
      intro d hd
      have := of_decide_eq_true (hr d hd)
      exact decide_eq_true (le_trans h this)
    simp only [List.find?_cons, hqb, hqr]

lemma foldl_choose_step_some (l : List NtpResult) :
    ∀ b : NtpResult, l.foldl choose_step (some b) =
      lowestRttFirst (b :: l.filter (·.success)) := by
  induction l with
  | nil =>
    intro b
    unfold lowestRttFirst
    rw [List.find?_cons]
    simp
  | cons r t ih =>
    intro b
    by_cases hs : r.success = true
    · rw [List.foldl_cons]
      by_cases hlt : r.rtt_ms < b.rtt_ms
      · have hstep : choose_step (some b) r = some r := by
          simp [choose_step, hs, hlt]
        rw [hstep, ih r, List.filter_cons_of_pos (by simpa using hs)]
        exact (lowestRttFirst_drop_head b r _ hlt).symm
      · have hstep : choose_step (some b) r = some b := by
          simp [choose_step, hs, hlt]
        rw [hstep, ih b, List.filter_cons_of_pos (by simpa using hs)]
        exact (lowestRttFirst_drop_second b r _ (not_lt.mp hlt)).symm
    · have hs' : r.success = false := Bool.eq_false_iff.mpr hs
      rw [List.foldl_cons]
      have hstep : choose_step (some b) r = some b := by
        simp [choose_step, hs']
      rw [hstep, ih b, List.filter_cons_of_neg (by simp [hs'])]

lemma choose_server_auto_eq (servers : List String) (probe : String → NtpResult) :
    choose_server_auto servers probe =
      lowestRttFirst ((servers.map probe).filter (·.success)) := by
  unfold choose_server_auto
  rw [← List.foldl_map]
  generalize (servers.map probe) = l
  induction l with
  | nil => rfl
  | cons r t ih =>
    rw [List.foldl_cons]
    by_cases hs : r.success = true
    · have hstep : choose_step none r = some r := by simp [choose_step, hs]
      rw [hstep, foldl_choose_step_some, List.filter_cons_of_pos (by simpa using hs)]
    · have hs' : r.success = false := Bool.eq_false_iff.mpr hs
      have hstep : choose_step none r = none := by simp [choose_step, hs']
      rw [hstep, ih, List.filter_cons_of_neg (by simp [hs'])]

/-! ### Claim theorems -/

/-- C1 (code bug): the Transactor does not take `t2` from the
receive-timestamp field nor `t3` from the transmit-timestamp field of
the reply.  `unpacked[9]` and `unpacked[11]` of
`struct.unpack("!B B b b 11I", data)` sit at byte offsets 24 and 32 —
the origin- and receive-timestamp fields of the 48-byte layout — so on
`sampleReply` (origin seconds 100, receive 200, transmit 250) the code
parses `t2` seconds 100 and `t3` seconds 200 while the receive and
transmit fields hold 200 and 250, and the offset it returns is the one
computed from the origin and receive timestamps, not the one computed
from the receive and transmit timestamps. -/
theorem c1_parse_uses_origin_and_receive_fields :
    unpackedOffset 9 = 24 ∧ unpackedOffset 11 = 32 ∧
    be32 sampleReply (unpackedOffset 9) = origin_ts_sec sampleReply ∧
    be32 sampleReply (unpackedOffset 11) = receive_ts_sec sampleReply ∧
    origin_ts_sec sampleReply = 100 ∧
    receive_ts_sec sampleReply = 200 ∧
    transmit_ts_sec sampleReply = 250 ∧
    be32 sampleReply (unpackedOffset 9) ≠ receive_ts_sec sampleReply ∧
    be32 sampleReply (unpackedOffset 11) ≠ transmit_ts_sec sampleReply ∧
    (query_ntp_once "pool.ntp.org" (.reply sampleReply 0 0 0 0)).offset_ms =
      (ntp_to_system_time (parts_to_timestamp 100 0) - 0 +
        (ntp_to_system_time (parts_to_timestamp 200 0) - 0)) / 2 * 1000 ∧
    (query_ntp_once "pool.ntp.org" (.reply sampleReply 0 0 0 0)).offset_ms ≠
      (ntp_to_system_time (parts_to_timestamp 200 0) - 0 +
        (ntp_to_system_time (parts_to_timestamp 250 0) - 0)) / 2 * 1000 := by
  have h9 : be32 sampleReply (unpackedOffset 9) = 100 := by decide
  have h10 : be32 sampleReply (unpackedOffset 10) = 0 := by decide
  have h11 : be32 sampleReply (unpackedOffset 11) = 200 := by decide
  have h12 : be32 sampleReply (unpackedOffset 12) = 0 := by decide
  have hlen : ¬ (sampleReply.length < 48) := by decide
  refine ⟨rfl, rfl, by decide, by decide, by decide, by decide, by decide,
    by decide, by decide, ?_, ?_⟩
  · simp only [query_ntp_once, hlen, if_false, h9, h10, h11, h12]
  · simp only [query_ntp_once, hlen, if_false, h9, h10, h11, h12]
    norm_num [parts_to_timestamp, ntp_to_system_time, NTP_DELTA]

/-- C2: on a selected sample, a drift strictly below the threshold
issues no correction request, and a drift at or above it issues exactly
one correction request, whose target equals the wall clock in
milliseconds plus the offset, up to Python integer truncation. -/
theorem c2_drift_decision (threshold_ms offset_ms now_epoch : ℚ) (escalation_ok : Bool) :
    (|offset_ms| < threshold_ms →
      (verify_and_apply_time threshold_ms offset_ms now_epoch escalation_ok).2 = none) ∧
    (threshold_ms ≤ |offset_ms| →
      (verify_and_apply_time threshold_ms offset_ms now_epoch escalation_ok).2 =
        some (pyInt (now_epoch * 1000 + offset_ms))) := by
  constructor
  · intro h
    simp [verify_and_apply_time, h]
  · intro h
    have h' : ¬ |offset_ms| < threshold_ms := not_lt.mpr h
    have harg : (now_epoch + offset_ms / 1000) * 1000 = now_epoch * 1000 + offset_ms := by
      ring
    simp [verify_and_apply_time, h', harg]

/-- Witness for C2 at threshold 200 ms: an offset of 150 ms issues no
request; an offset of 250 ms at wall clock 1000 s issues exactly the
target 1000250 ms. -/
theorem c2_drift_decision_witness :
    (verify_and_apply_time 200 150 1000 true).2 = none ∧
    (verify_and_apply_time 200 250 1000 true).2 = some 1000250 := by
  constructor
  · exact (c2_drift_decision 200 150 1000 true).1 (by norm_num)
  · have h := (c2_drift_decision 200 250 1000 true).2 (by norm_num)
    rw [h]
    norm_num [pyInt]

/-- C3 counterexample: on the tick path where no server is available,
with `check_interval_sec = 60` the loop performs one single sleep of 60
seconds before re-checking the stop flag — not increments of at most
0.5 s — so a stop request is not honored within one 0.5 s polling
increment on that path. -/
theorem c3_full_interval_sleep_on_no_server_path :
    run_loop_tick_sleeps true false false 60 = [⟨60, true⟩] ∧
    ¬ ((60 : ℚ) ≤ 1 / 2) := by
  constructor
  · rfl
  · norm_num

/-- C3 amended: on ticks where a sample was selected and no correction
was applied, every wait is a 0.5 s increment with the stop flag checked
before the next one, so a stop request takes effect within one
increment there; but the no-server path sleeps the whole raw
`check_interval_sec` in a single call, the auto-sync-disabled path
sleeps 1.0 s, and a correcting tick inserts a 3 s settle sleep, so on
those paths the termination latency after `stop()` is bounded by the
full sleep (at worst the whole interval), not by 0.5 s. -/
theorem c3_cancellation_granularity (n : ℕ) (c : Bool) :
    (∀ e ∈ run_loop_tick_sleeps true true false n, e.dur ≤ 1 / 2 ∧ e.stop_checked = true) ∧
    run_loop_tick_sleeps true false c n = [⟨(n : ℚ), true⟩] ∧
    run_loop_tick_sleeps false true c n = [⟨1, true⟩] ∧
    (∀ e ∈ run_loop_tick_sleeps true true true n, e.dur ≤ 3 ∧ e.stop_checked = true) := by
  refine ⟨?_, rfl, rfl, ?_⟩
  · intro e he
    simp only [run_loop_tick_sleeps, wait_increments] at he
    norm_num at he
    subst he
    exact ⟨le_refl _, rfl⟩
  · intro e he
    simp only [run_loop_tick_sleeps, wait_increments] at he
    norm_num at he
    rcases he with rfl | rfl
    · exact ⟨by norm_num, rfl⟩
    · exact ⟨by norm_num, rfl⟩

/-- Witness for C3 amended at `check_interval_sec = 60`: the 0.5 s
increment element of the plain successful path satisfies the bound, and
the no-server path is the single full 60 s sleep. -/
theorem c3_cancellation_granularity_witness :
    ((⟨1 / 2, true⟩ : SleepEvt).dur ≤ 1 / 2 ∧
      (⟨1 / 2, true⟩ : SleepEvt).stop_checked = true) ∧
    run_loop_tick_sleeps true false false 60 = [⟨(60 : ℚ), true⟩] := by
  have h := c3_cancellation_granularity 60 false
  have hm : (⟨1 / 2, true⟩ : SleepEvt) ∈ run_loop_tick_sleeps true true false 60 := by
    simp [run_loop_tick_sleeps, wait_increments]
  exact ⟨h.1 _ hm, h.2.1⟩

/-- C8 counterexample: with `samples = 1` the ICMP fallback issues two
echo requests (`max(1, max(2, 1)) = 2`), not exactly one. -/
theorem c8_ping_count_not_exactly_samples :
    icmp_pings_issued 1 = 2 ∧ (2 : ℕ) ≠ 1 := by
  decide

/-- C8 amended: when the aggregated SNTP probe for a server fails, the
fallback issues `max(2, samples)` ICMP pings (the worker passes
`max(2, samples)` and the ping helper floors its count at 1), takes the
median latency of the successful replies, and when a latency is
produced the stored sample keeps `success = false` with its error
tagged "ICMP fallback". -/
theorem c8_icmp_fallback (samples : ℕ) (server : String) (ntp_res : NtpResult)
    (times : List ℕ) (avg : Option ℕ) (v : ℚ) :
    icmp_pings_issued samples = max 2 samples ∧
    (times ≠ [] → icmp_ping_windows false times avg =
      some (pymedian (times.map fun n : ℕ => (n : ℚ)))) ∧
    (ntp_res.success = false → worker_result server ntp_res (some v) =
      ⟨server, v, 0, false, some "ICMP fallback"⟩) := by
  refine ⟨?_, ?_, ?_⟩
  · unfold icmp_pings_issued icmp_ping_windows_count worker_icmp_samples
    omega
  · intro h
    have h' : times.isEmpty = false := by simpa using h
    simp [icmp_ping_windows, h']
  · intro h
    simp [worker_result, h]

/-- Witness for C8: with `samples = 5` the fallback issues 5 pings;
one parsed reply of 3 ms has median 3; a failed SNTP sample with ICMP
latency 3 is stored as the "ICMP fallback"-tagged failure sample. -/
theorem c8_icmp_fallback_witness :
    icmp_pings_issued 5 = 5 ∧
    icmp_ping_windows false [3] none = some 3 ∧
    worker_result "a" ⟨"a", 0, 0, false, some "x"⟩ (some 3) =
      ⟨"a", 3, 0, false, some "ICMP fallback"⟩ := by
  have h := c8_icmp_fallback 5 "a" ⟨"a", 0, 0, false, some "x"⟩ [3] none 3
  refine ⟨h.1.trans (by norm_num), ?_, h.2.2 rfl⟩
  have h2 := h.2.1 (by simp)
  rw [h2]
  norm_num [pymedian, List.insertionSort, List.orderedInsert]

/-- C9: the requester reports failure exactly when the helper file is
missing or the escalation shell-out times out or raises; a completed
invocation reports success with the fixed verification-pending message,
saying nothing about the clock; the elevated helper exits 0 when the OS
clock-set primitive succeeded and 2 when it failed. -/
theorem c9_escalation_reporting (helper_found : Bool) (outcome : SpawnOutcome) (set_ok : Bool) :
    ((set_system_time_utc_via_helper helper_found outcome).1 = true ↔
      helper_found = true ∧ outcome = .completed) ∧
    ((set_system_time_utc_via_helper helper_found outcome).1 = true →
      (set_system_time_utc_via_helper helper_found outcome).2 =
        "Elevation invoked (verification pending).") ∧
    (set_ok = true → elevated_helper_exit_code set_ok = 0) ∧
    (set_ok = false → elevated_helper_exit_code set_ok = 2) := by
  cases helper_found <;> cases outcome <;> cases set_ok <;>
    simp [set_system_time_utc_via_helper, elevated_helper_exit_code]

/-- Witness for C9: the helper present and a completed shell-out report
success with the verification-pending message, and the helper exit
codes are 0 and 2 for an OS-level success and failure. -/
theorem c9_escalation_reporting_witness :
    (set_system_time_utc_via_helper true .completed).1 = true ∧
    (set_system_time_utc_via_helper true .completed).2 =
      "Elevation invoked (verification pending)." ∧
    elevated_helper_exit_code true = 0 ∧ elevated_helper_exit_code false = 2 := by
  have h := c9_escalation_reporting true .completed true
  have h' := c9_escalation_reporting true .completed false
  have hs : (set_system_time_utc_via_helper true .completed).1 = true :=
    h.1.mpr ⟨rfl, rfl⟩
  exact ⟨hs, h.2.1 hs, h.2.2.1 rfl, h'.2.2.2 rfl⟩

/-- C4: the ProbePool output list has exactly the length of the input
server list; slot `i` holds a sample whose `server` field is input `i`,
independent of which tasks completed (completion is an arbitrary
predicate here, so any completion order gives the same slots); and a
slot whose task never completed holds the failure sample tagged
"Unknown". -/
theorem c4_order_and_unknown_fill (servers : List String) (envs : ℕ → List ProbeEnv)
    (icmp : ℕ → Option ℚ) (completedTask : ℕ → Bool) :
    (ping_servers servers envs icmp completedTask).length = servers.length ∧
    (∀ i, i < servers.length →
      ((ping_servers servers envs icmp completedTask).getD i ⟨"", 0, 0, false, none⟩).server
        = servers.getD i "" ∧
      (completedTask i = false →
        (ping_servers servers envs icmp completedTask).getD i ⟨"", 0, 0, false, none⟩ =
          ⟨servers.getD i "", 0, 0, false, some "Unknown"⟩)) := by
  constructor
  · simp [ping_servers]
  · intro i hi
    have hgd : (ping_servers servers envs icmp completedTask).getD i ⟨"", 0, 0, false, none⟩
        = (if completedTask i then
            worker_result (servers.getD i "") (query_ntp (servers.getD i "") (envs i)) (icmp i)
          else ⟨servers.getD i "", 0, 0, false, some "Unknown"⟩) := by
      simp only [ping_servers]
      rw [List.getD_eq_getElem?_getD, List.getElem?_map, List.getElem?_range hi]
      rfl
    rw [hgd]
    constructor
    · split
      · exact worker_result_server _ _ _ (query_ntp_server _ _)
      · rfl
    · intro hct
      rw [if_neg (by simp [hct])]

/-- Witness for C4 with servers `["a", "b"]` where only task 0
completed: the output keeps length 2, slot 0 carries server "a", and
slot 1 is the "Unknown" failure sample for "b". -/
theorem c4_order_and_unknown_fill_witness :
    (ping_servers ["a", "b"] (fun _ => []) (fun _ => none) (fun i => decide (i = 0))).length
      = 2 ∧
    ((ping_servers ["a", "b"] (fun _ => []) (fun _ => none)
        (fun i => decide (i = 0))).getD 0 ⟨"", 0, 0, false, none⟩).server = "a" ∧
    (ping_servers ["a", "b"] (fun _ => []) (fun _ => none)
        (fun i => decide (i = 0))).getD 1 ⟨"", 0, 0, false, none⟩ =
      ⟨"b", 0, 0, false, some "Unknown"⟩ := by
  have h := c4_order_and_unknown_fill ["a", "b"] (fun _ => []) (fun _ => none)
    (fun i => decide (i = 0))
  exact ⟨h.1, (h.2 0 (by norm_num)).1, (h.2 1 (by norm_num)).2 rfl⟩

/-- C5: whenever at least one probe of a `query_ntp` run succeeds, the
aggregate is a success sample whose RTT is the exact statistical median
of the successful RTTs and whose offset is, independently, the exact
statistical median of the successful offsets; with zero successes the
aggregate is a failure carrying `last_err or "NTP failed"`, i.e. the
error of the last failed probe, or the generic "NTP failed" message
when none was observed or the last one was the empty string. -/
theorem c5_median_aggregation (server : String) (envs : List ProbeEnv) :
    (successful_probes server envs ≠ [] →
      (query_ntp server envs).success = true ∧
      (query_ntp server envs).error = none ∧
      IsStatMedian (query_ntp server envs).rtt_ms
        ((successful_probes server envs).map (·.rtt_ms)) ∧
      IsStatMedian (query_ntp server envs).offset_ms
        ((successful_probes server envs).map (·.offset_ms))) ∧
    (successful_probes server envs = [] →
      (query_ntp server envs).success = false ∧
      (query_ntp server envs).error = some (pyOrStr
        (((envs.map (query_ntp_once server)).filter fun r => !r.success).getLast?.bind
          (·.error)) "NTP failed")) := by
  constructor
  · intro hne
    rw [successful_probes] at hne
    have hif : ((envs.map (query_ntp_once server)).filter (·.success)).isEmpty = false := by
      simpa using hne
    simp only [query_ntp, successful_probes, hif, Bool.false_eq_true, if_false]
    refine ⟨trivial, trivial, ?_, ?_⟩
    · exact pymedian_spec _ (by simpa using hne)
    · exact pymedian_spec _ (by simpa using hne)
  · intro hemp
    rw [successful_probes] at hemp
    have hif : ((envs.map (query_ntp_once server)).filter (·.success)).isEmpty = true := by
      simpa using hemp
    simp only [query_ntp, hif, if_true]
    exact ⟨trivial, trivial⟩

/-- Witness for C5: one successful probe (a valid 48-byte reply) yields
a success aggregate, and a run whose single probe raised "boom" yields
a failure carrying "boom". -/
theorem c5_median_aggregation_witness :
    (query_ntp "s" [.reply sampleReply 0 0 0 0]).success = true ∧
    (query_ntp "s" [.sockError "boom"]).error = some "boom" := by
  constructor
  · exact ((c5_median_aggregation "s" [.reply sampleReply 0 0 0 0]).1 (by decide)).1
  · have h := ((c5_median_aggregation "s" [.sockError "boom"]).2 (by decide)).2
    rw [h]
    rfl

/-- C5 counterexample: a run whose only probe failed with the empty
error string produces the generic message "NTP failed" — not the
claimed literal "probe failed", and not the observed (empty) error
either. -/
theorem c5_generic_message_is_ntp_failed :
    (query_ntp "s" [.sockError ""]).success = false ∧
    (query_ntp "s" [.sockError ""]).error = some "NTP failed" ∧
    "NTP failed" ≠ "probe failed" ∧ "NTP failed" ≠ "" := by
  refine ⟨rfl, rfl, by decide, by decide⟩

/-- C6: in manual mode (auto-select off, preferred server set) a
successful preferred probe is returned at once; a failed preferred
probe falls through to the automatic path instead of reporting total
failure; the automatic path scans every configured server and returns
the first successful sample whose RTT is lowest (ties resolved by
first-seen order in the input list), and returns nothing when no
server succeeds. -/
theorem c6_server_selection (auto_select : Bool) (preferred : String)
    (servers : List String) (probe : String → NtpResult) :
    (auto_select = false → preferred ≠ "" → (probe preferred).success = true →
      servers ≠ [] →
      choose_server auto_select preferred servers probe = some (probe preferred)) ∧
    (auto_select = false → preferred ≠ "" → (probe preferred).success = false →
      choose_server auto_select preferred servers probe = choose_server_auto servers probe) ∧
    (auto_select = true → servers ≠ [] →
      choose_server auto_select preferred servers probe = choose_server_auto servers probe) ∧
    choose_server_auto servers probe =
      lowestRttFirst ((servers.map probe).filter (·.success)) ∧
    ((∀ s ∈ servers, (probe s).success = false) →
      choose_server_auto servers probe = none) := by
  refine ⟨?_, ?_, ?_, choose_server_auto_eq servers probe, ?_⟩
  · intro h1 h2 h3 h4
    simp [choose_server, h1, h2, h3, List.isEmpty_iff, h4]
  · intro h1 h2 h3
    by_cases hemp : servers.isEmpty
    · have : servers = [] := List.isEmpty_iff.mp hemp
      subst this
      simp [choose_server, choose_server_auto]
    · simp [choose_server, hemp, h1, h2, h3]
  · intro h1 h2
    simp [choose_server, h1, List.isEmpty_iff, h2]
  · intro hall
    rw [choose_server_auto_eq]
    have : (servers.map probe).filter (·.success) = [] := by
      rw [List.filter_eq_nil_iff]
      intro r hr
      simp only [List.mem_map] at hr
      obtain ⟨s, hs, rfl⟩ := hr
      simp [hall s hs]
    rw [this]
    rfl

/-- Witness for C6 with the `sampleProbe` fixture ("a" at RTT 5, "b" at
RTT 3, everything else failing): manual mode returns a successful
preferred "a" directly, falls back to the automatic path when the
preferred "nope" fails, the automatic path picks "b" (lowest RTT), and
a list of failing servers selects nothing. -/
theorem c6_server_selection_witness :
    choose_server false "a" ["a", "b"] sampleProbe = some (sampleProbe "a") ∧
    choose_server false "nope" ["a", "b"] sampleProbe =
      choose_server_auto ["a", "b"] sampleProbe ∧
    choose_server true "" ["a", "b"] sampleProbe =
      choose_server_auto ["a", "b"] sampleProbe ∧
    choose_server_auto ["a", "b"] sampleProbe = some (sampleProbe "b") ∧
    choose_server_auto ["c", "d"] sampleProbe = none := by
  have h1 := c6_server_selection false "a" ["a", "b"] sampleProbe
  have h2 := c6_server_selection false "nope" ["a", "b"] sampleProbe
  have h3 := c6_server_selection true "" ["a", "b"] sampleProbe
  have h4 := c6_server_selection true "" ["c", "d"] sampleProbe
  refine ⟨h1.1 rfl (by decide) (by decide) (by decide),
    h2.2.1 rfl (by decide) (by decide),
    h3.2.2.1 rfl (by decide), ?_, ?_⟩
  · rw [h3.2.2.2.1]
    decide
  · refine h4.2.2.2.2 ?_
    intro s hs
    simp only [List.mem_cons, List.not_mem_nil, or_false] at hs
    rcases hs with rfl | rfl <;> decide

/-- C7: every sample any producer emits has a non-negative RTT, and
every success sample has a null error (offsets are plain rationals by
construction, hence never null): `query_ntp_once` floors its RTT at
zero even when the intermediate round trip is negative, `query_ntp`
takes medians of non-negative values, the ICMP helper returns medians
of non-negative parsed times, and every `ping_servers` slot — SNTP
success, ICMP fallback, both-failed, or the "Unknown" fill-in — keeps
both invariants whenever the ICMP latencies fed to it are
non-negative. -/
theorem c7_rtt_nonneg_and_success_shape (server : String) (env : ProbeEnv)
    (envs : List ProbeEnv) (servers : List String) (allEnvs : ℕ → List ProbeEnv)
    (icmp : ℕ → Option ℚ) (completedTask : ℕ → Bool) (failed : Bool)
    (times : List ℕ) (avg : Option ℕ) :
    (0 ≤ (query_ntp_once server env).rtt_ms ∧
      ((query_ntp_once server env).success = true →
        (query_ntp_once server env).error = none)) ∧
    (0 ≤ (query_ntp server envs).rtt_ms ∧
      ((query_ntp server envs).success = true → (query_ntp server envs).error = none)) ∧
    (∀ v, icmp_ping_windows failed times avg = some v → 0 ≤ v) ∧
    ((∀ i v, icmp i = some v → 0 ≤ v) →
      ∀ r ∈ ping_servers servers allEnvs icmp completedTask,
        0 ≤ r.rtt_ms ∧ (r.success = true → r.error = none)) := by
  refine ⟨⟨query_ntp_once_rtt_nonneg _ _, query_ntp_once_error_of_success _ _⟩,
    ⟨query_ntp_rtt_nonneg _ _, query_ntp_error_of_success _ _⟩, ?_, ?_⟩
  · intro v hv
    unfold icmp_ping_windows at hv
    split at hv
    · exact absurd hv (by simp)
    · split at hv
      · rw [Option.some_inj] at hv
        subst hv
        apply pymedian_nonneg
        intro x hx
        simp only [List.mem_map] at hx
        obtain ⟨n, -, hne⟩ := hx
        rw [← hne]
        exact Nat.cast_nonneg n
      · cases avg with
        | none => exact absurd hv (by simp)
        | some a =>
          rw [Option.some_inj] at hv
          subst hv
          exact Nat.cast_nonneg a
  · intro hicmp r hr
    simp only [ping_servers, List.mem_map, List.mem_range] at hr
    obtain ⟨i, -, rfl⟩ := hr
    split
    · unfold worker_result
      split
      · exact ⟨query_ntp_rtt_nonneg _ _, fun _ => query_ntp_error_of_success _ _ (by assumption)⟩
      · cases hic : icmp i with
        | some v => exact ⟨hicmp i v hic, fun hfalse => by simp at hfalse⟩
        | none => exact ⟨le_refl 0, fun hfalse => by simp at hfalse⟩
    · exact ⟨le_refl 0, fun hfalse => by simp at hfalse⟩

/-- Witness for C7: a concrete probe, a concrete ICMP run with parsed
times `[5, 9]`, and a one-server pool whose ICMP fallback latency 7 is
non-negative, all satisfy the invariant conjuncts. -/
theorem c7_rtt_nonneg_and_success_shape_witness :
    (0 : ℚ) ≤ (query_ntp_once "s" (.reply sampleReply 0 0 0 0)).rtt_ms ∧
    (query_ntp_once "s" (.reply sampleReply 0 0 0 0)).error = none ∧
    (0 : ℚ) ≤ 7 ∧
    (0 : ℚ) ≤ (NtpResult.mk "a" 7 0 false (some "ICMP fallback")).rtt_ms := by
  have h := c7_rtt_nonneg_and_success_shape "s" (.reply sampleReply 0 0 0 0) []
    ["a"] (fun _ => [.sockError "x"]) (fun _ => some 7) (fun _ => true) false [5, 9] none
  have hs : (query_ntp_once "s" (.reply sampleReply 0 0 0 0)).success = true := by decide
  have hicmp : ∀ i v, (fun _ : ℕ => (some 7 : Option ℚ)) i = some v → 0 ≤ v := by
    intro i v hv
    rw [Option.some_inj] at hv
    subst hv
    norm_num
  have h7 : icmp_ping_windows false [5, 9] none = some 7 := by
    norm_num [icmp_ping_windows, pymedian, List.insertionSort, List.orderedInsert]
  have hmem : (NtpResult.mk "a" 7 0 false (some "ICMP fallback")) ∈
      ping_servers ["a"] (fun _ => [.sockError "x"]) (fun _ => some 7) (fun _ => true) := by
    simp [ping_servers, worker_result, query_ntp, query_ntp_once, pyOrStr]
  exact ⟨h.1.1, h.1.2 hs, h.2.2.1 7 h7, (h.2.2.2 hicmp _ hmem).1⟩

/-- C10: on every tick whose selection returned a sample, the current
time is stored into `last_success_time` before the tick ends — also
when the escalation invocation reported failure (so the changed flag is
false despite drift at or above the threshold), and whatever the
post-correction re-probe returned. -/
theorem c10_last_success_always_recorded (threshold_ms offset_ms now_epoch : ℚ)
    (escalation_ok : Bool) (recheck : NtpResult) (now_end : ℚ) :
    tick_last_success_update
        (verify_and_apply_time threshold_ms offset_ms now_epoch escalation_ok).1
        recheck threshold_ms now_end = some now_end := by
  simp [tick_last_success_update]

end TimeGuardian
